import Mathlib

/-!
Shallow embedding of the wide-residual-network architecture builder in
`src/models/res.py` (classes `BasicLayer`, `ConvolutionBlock`,
`BottleneckBlock`, `NetGroup`, `WideResidualNetwork`).

Two shape semantics are modelled:

* the *declared* shape rule, `compute_output_shape`, translated literally
  from the source (Python floor division `//`);
* the *runtime* shape, i.e. the shape the underlying Keras layers actually
  produce: `Conv2D` with `padding='same'` yields spatial size
  `ceil(input / stride)`, `BatchNormalization` and the activation preserve
  shape, and `AvgPool2D` with default valid padding and stride = pool size
  yields `(input - pool) / pool + 1`.

Value-level semantics of `call` is modelled generically over an arbitrary
tensor type with an interpretation of the primitive Keras layers, so that
theorems about the composition structure of `call` hold for every
interpretation.
-/

/-- A concrete 4-component tensor shape `(batch, height, width, channels)`,
mirroring `tensorflow.TensorShape` as used in `res.py`. -/
structure TensorShape where
  batch : Nat
  height : Nat
  width : Nat
  channels : Nat
deriving DecidableEq, Repr

/-- Ceiling division on naturals, the spatial-size rule of a same-padding
convolution of the given stride. -/
def ceilDiv (a b : Nat) : Nat := (a + b - 1) / b

/-- Runtime output shape of `Conv2D(filters, kernel_size, strides=stride,
padding='same')`: spatial dimensions become `ceil(dim / stride)`, channel
dimension becomes `filters`. -/
def conv2dOutputShape (filters stride : Nat) (s : TensorShape) : TensorShape :=
  ⟨s.batch, ceilDiv s.height stride, ceilDiv s.width stride, filters⟩

/-- Runtime output shape of `AvgPool2D(pool_size=pool)` with the Keras
defaults (stride = pool size, valid padding): spatial dimensions become
`(dim - pool) / pool + 1`; matches TensorFlow for `dim ≥ pool`. -/
def avgPool2dOutputShape (pool : Nat) (s : TensorShape) : TensorShape :=
  ⟨s.batch, (s.height - pool) / pool + 1, (s.width - pool) / pool + 1, s.channels⟩

/-- The inherited `BasicLayer.compute_output_shape` (res.py lines 60-66),
translated literally: Python `//` is floor division, and the channel
component is `self.filters * self.k`. -/
def basicComputeOutputShape (stride filters k : Nat) (s : TensorShape) : TensorShape :=
  ⟨s.batch, s.height / stride, s.width / stride, filters * k⟩

/-- Fallible view of `BasicLayer.compute_output_shape`: Python floor
division raises `ZeroDivisionError` when `self.stride == 0`, and succeeds
otherwise.  The source method contains no other failure path. -/
def basicComputeOutputShapeE (stride filters k : Nat) (s : TensorShape) :
    Except String TensorShape :=
  if stride = 0 then Except.error "ZeroDivisionError"
  else Except.ok (basicComputeOutputShape stride filters k s)

/-- `ConvolutionBlock(filters, kernel_size, stride, activation, k)`: its
`sub_layers` are `[BatchNormalization(), activation(), Conv2D(filters * k,
kernel_size, stride, padding='same')]`.  The constructor parameters are the
stored state. -/
structure ConvolutionBlock where
  filters : Nat
  kernel_size : Nat × Nat
  stride : Nat
  k : Nat
deriving DecidableEq, Repr

/-- Constructor of `ConvolutionBlock`; in the source `stride` defaults to 1
and `k` defaults to 1, call sites below pass the defaults explicitly. -/
def mkConvolutionBlock (filters : Nat) (kernel_size : Nat × Nat)
    (stride k : Nat) : ConvolutionBlock :=
  ⟨filters, kernel_size, stride, k⟩

/-- Channel count of the `Conv2D` inside a `ConvolutionBlock`:
`filters * k` in the source constructor. -/
def ConvolutionBlock.convFilters (c : ConvolutionBlock) : Nat :=
  c.filters * c.k

/-- Runtime output shape of a `ConvolutionBlock`: batch normalization and
the activation preserve shape, and the same-padding `Conv2D` applies
`conv2dOutputShape`. -/
def ConvolutionBlock.runShape (c : ConvolutionBlock) (s : TensorShape) : TensorShape :=
  conv2dOutputShape c.convFilters c.stride s

/-- `ConvolutionBlock.compute_output_shape` delegates to the inherited
`BasicLayer` rule with the block's stored `stride`, `filters`, `k`. -/
def ConvolutionBlock.computeOutputShape (c : ConvolutionBlock) (s : TensorShape) :
    TensorShape :=
  basicComputeOutputShape c.stride c.filters c.k s

/-- `BottleneckBlock(filters, stride, activation, k)`: stored constructor
state. -/
structure BottleneckBlock where
  filters : Nat
  stride : Nat
  k : Nat
deriving DecidableEq, Repr

/-- Constructor of `BottleneckBlock`; in the source `stride` and `k`
default to 1. -/
def mkBottleneckBlock (filters stride k : Nat) : BottleneckBlock :=
  ⟨filters, stride, k⟩

/-- The `sub_layers` built by `BottleneckBlock.__init__`: three
`ConvolutionBlock`s with `filters * k` channels each — a 1×1 block carrying
the stride, a 3×3 block with default stride 1, a 1×1 block with default
stride 1; each inner block is built with its own default `k = 1`. -/
def BottleneckBlock.sub_layers (b : BottleneckBlock) : List ConvolutionBlock :=
  [ mkConvolutionBlock (b.filters * b.k) (1, 1) b.stride 1,
    mkConvolutionBlock (b.filters * b.k) (3, 3) 1 1,
    mkConvolutionBlock (b.filters * b.k) (1, 1) 1 1 ]

/-- Runtime output shape of a `BottleneckBlock`: the fold of its three
children's runtime shapes, in order (the loop of `BasicLayer.call`). -/
def BottleneckBlock.runShape (b : BottleneckBlock) (s : TensorShape) : TensorShape :=
  b.sub_layers.foldl (fun sh c => c.runShape sh) s

/-- `BottleneckBlock.compute_output_shape` delegates to the inherited
`BasicLayer` rule. -/
def BottleneckBlock.computeOutputShape (b : BottleneckBlock) (s : TensorShape) :
    TensorShape :=
  basicComputeOutputShape b.stride b.filters b.k s

/-- `NetGroup(n, filters, stride, activation, k)`: stored constructor state. -/
structure NetGroup where
  n : Nat
  filters : Nat
  stride : Nat
  k : Nat
deriving DecidableEq, Repr

/-- Constructor of `NetGroup`; in the source `stride` and `k` default to 1. -/
def mkGroup (n filters stride k : Nat) : NetGroup :=
  ⟨n, filters, stride, k⟩

/-- The `sub_layers` built by `NetGroup.__init__`: one `BottleneckBlock`
carrying the group's stride followed by `n - 1` blocks built with the
default stride 1 and the same filter count (`range(n - 1)` is empty for
`n ≤ 1`, exactly as Nat subtraction gives here). -/
def NetGroup.sub_layers (g : NetGroup) : List BottleneckBlock :=
  mkBottleneckBlock g.filters g.stride g.k ::
    (List.range (g.n - 1)).map (fun _ => mkBottleneckBlock g.filters 1 g.k)

/-- Runtime output shape of a `NetGroup`: the fold of its units' runtime
shapes, in order. -/
def NetGroup.runShape (g : NetGroup) (s : TensorShape) : TensorShape :=
  g.sub_layers.foldl (fun sh b => b.runShape sh) s

/-- `NetGroup.compute_output_shape` delegates to the inherited `BasicLayer`
rule. -/
def NetGroup.computeOutputShape (g : NetGroup) (s : TensorShape) : TensorShape :=
  basicComputeOutputShape g.stride g.filters g.k s

/-- `WideResidualNetwork.FILTER_SIZES`. -/
def FILTER_SIZES : List Nat := [16, 16, 32, 64]

/-- `WideResidualNetwork.STRIDES`. -/
def STRIDES : List Nat := [4, 1, 2, 2]

/-- `WideResidualNetwork(input_shape, group_size, pool_size, activation,
k)`: stored constructor state (`pool_size` defaults to 8 and `k` to 1 in
the source). -/
structure WideResidualNetwork where
  input_shape : Nat × Nat × Nat
  group_size : Nat
  pool_size : Nat
  k : Nat
deriving DecidableEq, Repr

/-- Constructor of `WideResidualNetwork`. -/
def mkWideResidualNetwork (input_shape : Nat × Nat × Nat)
    (group_size pool_size k : Nat) : WideResidualNetwork :=
  ⟨input_shape, group_size, pool_size, k⟩

/-- One entry of the `self.groups` list built by
`WideResidualNetwork.__init__`: the stem `Conv2D`, a `NetGroup`, or the
terminal `AvgPool2D`. -/
inductive NetLayer where
  | conv2d (filters : Nat) (kernel_size : Nat × Nat) (stride : Nat)
  | group (g : NetGroup)
  | avgPool (pool : Nat)
deriving DecidableEq, Repr

/-- The `NetGroup`s built by `WideResidualNetwork.__init__`: one per index
`i` in `range(1, len(FILTER_SIZES))`, each with `n = group_size`,
`filters = FILTER_SIZES[i]`, `stride = STRIDES[i]` and the network's `k`. -/
def WideResidualNetwork.groupList (net : WideResidualNetwork) : List NetGroup :=
  (List.range' 1 (FILTER_SIZES.length - 1)).map
    (fun i => mkGroup net.group_size (FILTER_SIZES.getD i 0) (STRIDES.getD i 0) net.k)

/-- The full `self.groups` list of `WideResidualNetwork.__init__`: a stem
`Conv2D(FILTER_SIZES[0], (3, 3), STRIDES[0], padding='same')` — note: no
width multiplier on the stem — then the three `NetGroup`s, then
`AvgPool2D(pool_size)`. -/
def WideResidualNetwork.groups (net : WideResidualNetwork) : List NetLayer :=
  NetLayer.conv2d (FILTER_SIZES.getD 0 0) (3, 3) (STRIDES.getD 0 0) ::
    net.groupList.map NetLayer.group ++ [NetLayer.avgPool net.pool_size]

/-- Runtime output shape of one `NetLayer`. -/
def NetLayer.runShape : NetLayer → TensorShape → TensorShape
  | NetLayer.conv2d filters _ stride => conv2dOutputShape filters stride
  | NetLayer.group g => g.runShape
  | NetLayer.avgPool pool => avgPool2dOutputShape pool

/-- Runtime output shape of the full network: `WideResidualNetwork.call`
threads the input through every member of `self.groups` in order. -/
def WideResidualNetwork.runShape (net : WideResidualNetwork) (s : TensorShape) :
    TensorShape :=
  net.groups.foldl (fun sh l => l.runShape sh) s

/-- `WideResidualNetwork.compute_output_shape` (res.py lines 185-192),
translated literally: both spatial dimensions are floor-divided by
`np.product(STRIDES) * self.pool_size`, and the channel component is
`FILTER_SIZES[-1]` — the stored width multiplier `k` is not used. -/
def WideResidualNetwork.computeOutputShape (net : WideResidualNetwork)
    (s : TensorShape) : TensorShape :=
  let stride_product := STRIDES.foldl (· * ·) 1
  ⟨s.batch,
   s.height / (stride_product * net.pool_size),
   s.width / (stride_product * net.pool_size),
   FILTER_SIZES.getLastD 0⟩

/-- Fallible view of the constructor chain
`WideResidualNetwork.__init__` → `NetGroup.__init__` →
`BottleneckBlock.__init__` → `ConvolutionBlock.__init__`: none of these
constructors contains a validation check or a raise statement, so
construction succeeds for every parameter value. -/
def mkWideResidualNetworkE (input_shape : Nat × Nat × Nat)
    (group_size pool_size k : Nat) : Except String WideResidualNetwork :=
  Except.ok (mkWideResidualNetwork input_shape group_size pool_size k)

/-- An interpretation of the primitive Keras layers over an arbitrary
tensor type `T`: semantics of `BatchNormalization()`, of an instance of the
activation factory, and of `Conv2D(filters, kernel_size, strides, 'same')`. -/
structure PrimSem (T : Type) where
  batchNormalization : T → T
  activation : T → T
  conv2d : Nat → Nat × Nat → Nat → T → T

/-- `BasicLayer.call` (res.py lines 54-58): the input is passed to
`sub_layers[0]` and the result threaded through `sub_layers[1:]`; for the
non-empty lists every constructor builds, this is a left fold. -/
def callList {T : Type} (fs : List (T → T)) (x : T) : T :=
  fs.foldl (fun a f => f a) x

/-- Value semantics of `ConvolutionBlock.call`: the inherited fold over its
`sub_layers` `[BatchNormalization(), activation(), Conv2D(filters * k, ...)]`. -/
def ConvolutionBlock.callSem {T : Type} (I : PrimSem T) (c : ConvolutionBlock) :
    T → T :=
  callList [I.batchNormalization, I.activation,
            I.conv2d c.convFilters c.kernel_size c.stride]

/-- Value semantics of `BottleneckBlock.call`: the inherited fold over its
three `ConvolutionBlock` children. -/
def BottleneckBlock.callSem {T : Type} (I : PrimSem T) (b : BottleneckBlock) :
    T → T :=
  callList (b.sub_layers.map (fun c => c.callSem I))

/-- Value semantics of `NetGroup.call`: the inherited fold over its
`BottleneckBlock` units. -/
def NetGroup.callSem {T : Type} (I : PrimSem T) (g : NetGroup) : T → T :=
  callList (g.sub_layers.map (fun b => b.callSem I))

/-! ### Helper lemmas -/

theorem ceilDiv_by_one (a : Nat) : ceilDiv a 1 = a := by
  simp [ceilDiv]

theorem foldl_map_range_const_fixed {α β : Type} (f : α → β → α) (b : β)
    (m : Nat) (a : α) (h : f a b = a) :
    List.foldl f a ((List.range m).map (fun _ => b)) = a := by
  induction m with
  | zero => rfl
  | succ m ih =>
    rw [List.range_succ, List.map_append, List.foldl_append, ih]
    simpa using h

theorem bottleneck_runShape_eval (f s k : Nat) (sh : TensorShape) :
    (mkBottleneckBlock f s k).runShape sh =
      ⟨sh.batch, ceilDiv sh.height s, ceilDiv sh.width s, f * k⟩ := by
  simp [BottleneckBlock.runShape, BottleneckBlock.sub_layers,
    ConvolutionBlock.runShape, ConvolutionBlock.convFilters,
    conv2dOutputShape, mkConvolutionBlock, mkBottleneckBlock, ceilDiv_by_one]

/-! ### Claim theorems -/

set_option maxRecDepth 4000 in
/-- C3: on input shape (1, 227, 227, 3) with the default configuration
(stem stride 4, group strides [1, 2, 2], pool size 8, k = 1, filters
[16, 16, 32, 64], group depth 13 as used by `Res._build_model`), the
runtime output shape is (1, 1, 1, 64), and
`WideResidualNetwork.compute_output_shape` computes the same shape. -/
theorem wrn_default_227_output_shape :
    (mkWideResidualNetwork (227, 227, 3) 13 8 1).runShape ⟨1, 227, 227, 3⟩
        = ⟨1, 1, 1, 64⟩ ∧
    (mkWideResidualNetwork (227, 227, 3) 13 8 1).computeOutputShape ⟨1, 227, 227, 3⟩
        = ⟨1, 1, 1, 64⟩ := by
  constructor <;> decide

set_option maxRecDepth 4000 in
/-- C1 (failing-input evaluation): with width multiplier k = 2 and the
default configuration, `WideResidualNetwork.compute_output_shape` reports
channel count `FILTER_SIZES[-1] = 64` — it ignores the stored `k` — while
the built network actually produces `64 * k = 128` channels at runtime, so
the declared rule disagrees with both the claim's `filter_count * k` and
the runtime channel count. -/
theorem wrn_channel_rule_ignores_width_multiplier :
    ((mkWideResidualNetwork (227, 227, 3) 13 8 2).computeOutputShape
        ⟨1, 227, 227, 3⟩).channels = 64 ∧
    ((mkWideResidualNetwork (227, 227, 3) 13 8 2).runShape
        ⟨1, 227, 227, 3⟩).channels = 128 := by
  constructor <;> decide

/-- C2 (failing-input evaluation): for a `ConvolutionBlock` with stride 2
on input shape (1, 5, 5, 3), `compute_output_shape` floor-divides the
spatial sizes (`5 // 2 = 2`), while the same-padding convolution at runtime
produces `ceil(5 / 2) = 3` as the claim states — the declared shape rule
rounds down, not up, at non-divisible sizes. -/
theorem convolution_shape_rule_floors_at_nondivisible :
    (mkConvolutionBlock 16 (3, 3) 2 1).computeOutputShape ⟨1, 5, 5, 3⟩
        = ⟨1, 2, 2, 16⟩ ∧
    (mkConvolutionBlock 16 (3, 3) 2 1).runShape ⟨1, 5, 5, 3⟩
        = ⟨1, 3, 3, 16⟩ := by
  constructor <;> decide

/-- C5 (counterexample): constructing the network with the malformed
configuration group depth 0 does not fail — `mkWideResidualNetworkE`
returns the built network, whose three `Group`s each silently contain a
single `BottleneckBlock` (Python `range(n - 1)` is empty for `n = 0`). -/
theorem construction_accepts_group_size_zero :
    mkWideResidualNetworkE (227, 227, 3) 0 8 1
        = Except.ok (mkWideResidualNetwork (227, 227, 3) 0 8 1) ∧
    (mkWideResidualNetwork (227, 227, 3) 0 8 1).groupList.map
        (fun g => g.sub_layers.length) = [1, 1, 1] := by
  exact ⟨rfl, by decide⟩

/-- C5 (amended): the constructor chain performs no configuration
validation at all, so construction succeeds for every parameter value —
malformed configurations are accepted silently rather than rejected with a
configuration error. -/
theorem construction_never_fails (ishape : Nat × Nat × Nat) (gs ps k : Nat) :
    mkWideResidualNetworkE ishape gs ps k
        = Except.ok (mkWideResidualNetwork ishape gs ps k) := rfl

/-- C6: for every tensor type and every interpretation of the primitive
layers, a `BottleneckBlock`'s `call` is exactly the sequential composition
of its three children's `call`s applied to the input — no residual/skip
addition of the input anywhere — and a `Group` of depth 1 degenerates to
exactly the single bottleneck's direct transform. -/
theorem bottleneck_call_is_pure_composition {T : Type} (I : PrimSem T)
    (f s k : Nat) (x : T) :
    (mkBottleneckBlock f s k).callSem I x
        = (mkConvolutionBlock (f * k) (1, 1) 1 1).callSem I
            ((mkConvolutionBlock (f * k) (3, 3) 1 1).callSem I
              ((mkConvolutionBlock (f * k) (1, 1) s 1).callSem I x)) ∧
    (mkGroup 1 f s k).callSem I x = (mkBottleneckBlock f s k).callSem I x :=
  ⟨rfl, rfl⟩

/-- C7: every `BottleneckBlock` is built from exactly three
`ConvolutionBlock`s in sequence — 1×1 kernel carrying the overall stride,
then 3×3 with stride 1, then 1×1 with stride 1 — each with `filters * k`
output channels on its inner `Conv2D`. -/
theorem bottleneck_three_convolution_units (f s k : Nat) :
    (mkBottleneckBlock f s k).sub_layers
        = [mkConvolutionBlock (f * k) (1, 1) s 1,
           mkConvolutionBlock (f * k) (3, 3) 1 1,
           mkConvolutionBlock (f * k) (1, 1) 1 1] ∧
    (mkBottleneckBlock f s k).sub_layers.length = 3 ∧
    (mkBottleneckBlock f s k).sub_layers.map ConvolutionBlock.convFilters
        = [f * k, f * k, f * k] := by
  refine ⟨rfl, rfl, ?_⟩
  simp [BottleneckBlock.sub_layers, ConvolutionBlock.convFilters,
    mkConvolutionBlock, mkBottleneckBlock]

/-- C8: the network's `groups` list is, in order: one stem convolution
with 3×3 kernel, stride `STRIDES[0] = 4` and `FILTER_SIZES[0] = 16`
filters with no width multiplier; then one `Group` per remaining stage
with the stage's filter count and stride (16/1, 32/2, 64/2) and the
network's `k`; then one terminal average pool of the configured size. -/
theorem wrn_assembly_order (ishape : Nat × Nat × Nat) (gs ps k : Nat) :
    (mkWideResidualNetwork ishape gs ps k).groups
        = [NetLayer.conv2d 16 (3, 3) 4,
           NetLayer.group (mkGroup gs 16 1 k),
           NetLayer.group (mkGroup gs 32 2 k),
           NetLayer.group (mkGroup gs 64 2 k),
           NetLayer.avgPool ps] := rfl

/-- C9: `BasicLayer.compute_output_shape` is total for every positive
configured stride — the only failure path of the source method is
`ZeroDivisionError` at stride 0 — and deterministic: it always returns the
one value of the pure rule `basicComputeOutputShape`, so repeated calls on
identical inputs give identical outputs and no state is consulted or
mutated. -/
theorem shape_rule_total_for_positive_stride (stride filters k : Nat)
    (sh : TensorShape) (h : 0 < stride) :
    basicComputeOutputShapeE stride filters k sh
        = Except.ok (basicComputeOutputShape stride filters k sh) := by
  simp [basicComputeOutputShapeE, Nat.pos_iff_ne_zero.mp h]

/-- Witness for C9 at stride 2, filters 16, k 1, shape (1, 8, 8, 3). -/
theorem shape_rule_total_for_positive_stride_witness :
    0 < 2 ∧ basicComputeOutputShapeE 2 16 1 ⟨1, 8, 8, 3⟩
        = Except.ok (basicComputeOutputShape 2 16 1 ⟨1, 8, 8, 3⟩) :=
  ⟨by decide, shape_rule_total_for_positive_stride 2 16 1 ⟨1, 8, 8, 3⟩ (by decide)⟩

/-- C4: in every `Group` with unit count n ≥ 1 and stride s, the head unit
is the one bottleneck carrying stride s, every remaining unit has stride 1
and the same filter count, the group has exactly n units, and the group's
runtime spatial reduction is exactly `ceil(dim / s)` — the factor s applied
once, not s^n, independent of n. -/
theorem group_applies_stride_once (n f s k : Nat) (h : 1 ≤ n) :
    (mkGroup n f s k).sub_layers.head? = some (mkBottleneckBlock f s k) ∧
    (∀ u ∈ (mkGroup n f s k).sub_layers.tail, u.stride = 1 ∧ u.filters = f) ∧
    (mkGroup n f s k).sub_layers.length = n ∧
    ∀ sh : TensorShape, (mkGroup n f s k).runShape sh =
      ⟨sh.batch, ceilDiv sh.height s, ceilDiv sh.width s, f * k⟩ := by
  refine ⟨rfl, ?_, ?_, ?_⟩
  · intro u hu
    rw [NetGroup.sub_layers, List.tail_cons, List.mem_map] at hu
    obtain ⟨i, _, rfl⟩ := hu
    exact ⟨rfl, rfl⟩
  · rw [NetGroup.sub_layers, List.length_cons, List.length_map, List.length_range]
    simp only [mkGroup]
    omega
  · intro sh
    rw [show (mkGroup n f s k).runShape sh
          = List.foldl (fun sh2 b => BottleneckBlock.runShape b sh2)
              ((mkBottleneckBlock f s k).runShape sh)
              ((List.range (n - 1)).map (fun _ => mkBottleneckBlock f 1 k)) from rfl,
        bottleneck_runShape_eval]
    exact foldl_map_range_const_fixed _ _ _ _
      (by rw [bottleneck_runShape_eval]; simp [ceilDiv_by_one])

/-- Witness for C4 at n = 2, filters 32, stride 2, k = 1. -/
theorem group_applies_stride_once_witness :
    1 ≤ 2 ∧
    ((mkGroup 2 32 2 1).sub_layers.head? = some (mkBottleneckBlock 32 2 1) ∧
     (∀ u ∈ (mkGroup 2 32 2 1).sub_layers.tail, u.stride = 1 ∧ u.filters = 32) ∧
     (mkGroup 2 32 2 1).sub_layers.length = 2 ∧
     ∀ sh : TensorShape, (mkGroup 2 32 2 1).runShape sh =
       ⟨sh.batch, ceilDiv sh.height 2, ceilDiv sh.width 2, 32 * 1⟩) :=
  ⟨by decide, group_applies_stride_once 2 32 2 1 (by decide)⟩

/-- C10: for every `BottleneckBlock` and every `Group` as constructed,
threading any input shape through the children's `compute_output_shape`s
in order gives exactly the block's own declared `compute_output_shape`. -/
theorem block_shape_rule_matches_children_composition (f s k n : Nat)
    (sh : TensorShape) :
    (mkBottleneckBlock f s k).sub_layers.foldl
        (fun a c => c.computeOutputShape a) sh
      = (mkBottleneckBlock f s k).computeOutputShape sh ∧
    (mkGroup n f s k).sub_layers.foldl
        (fun a u => u.computeOutputShape a) sh
      = (mkGroup n f s k).computeOutputShape sh := by
  constructor
  · simp [BottleneckBlock.sub_layers, BottleneckBlock.computeOutputShape,
      ConvolutionBlock.computeOutputShape, basicComputeOutputShape,
      mkConvolutionBlock, mkBottleneckBlock, Nat.div_one]
  · have hfix : (mkBottleneckBlock f 1 k).computeOutputShape
        ((mkBottleneckBlock f s k).computeOutputShape sh)
        = (mkBottleneckBlock f s k).computeOutputShape sh := by
      simp [BottleneckBlock.computeOutputShape, mkBottleneckBlock,
        basicComputeOutputShape]
    calc (mkGroup n f s k).sub_layers.foldl (fun a u => u.computeOutputShape a) sh
        = List.foldl (fun a u => BottleneckBlock.computeOutputShape u a)
            ((mkBottleneckBlock f s k).computeOutputShape sh)
            ((List.range (n - 1)).map (fun _ => mkBottleneckBlock f 1 k)) := rfl
      _ = (mkBottleneckBlock f s k).computeOutputShape sh :=
            foldl_map_range_const_fixed _ _ _ _ hfix
      _ = (mkGroup n f s k).computeOutputShape sh := rfl
